import Mathlib

/-!
Shallow embedding of the ArtFlow backend (src/main.py, src/schemas.py):
a FastAPI CRUD service over a Mongo-style document store.  Python floats
are modelled as exact rationals (ℚ), Python ints as ℤ, stored documents as
structures of `Option` fields (a Mongo document may lack any field, and the
handlers read fields with `d.get(name, default)`), and the "post" collection
as an association list from ObjectId strings to documents.
-/

namespace ArtFlow

/-! ## Python `round(x, 2)`

Python's builtin `round` uses round-half-to-even (banker's rounding).
`roundHalfEven q` is the integer nearest to `q`, halves going to the even
integer; `round2 q` models `round(q, 2)`. -/

def roundHalfEven (q : ℚ) : ℤ :=
  let f : ℤ := ⌊q⌋
  let frac : ℚ := q - f
  if frac < 1/2 then f
  else if 1/2 < frac then f + 1
  else if f % 2 = 0 then f else f + 1

def round2 (q : ℚ) : ℚ := (roundHalfEven (q * 100) : ℚ) / 100

/-! ## Case-insensitive substring matching

`list_artworks` builds Mongo `$regex` conditions with option `"i"`.  For a
pattern free of regex metacharacters (the free-text queries the endpoint is
specified for), such a condition holds exactly when the pattern occurs in the
field as a case-insensitive substring; that matching semantics is embedded
here directly. -/

def listIsInfix (pat : List Char) : List Char → Bool
  | [] => pat.isEmpty
  | c :: rest => List.isPrefixOf pat (c :: rest) || listIsInfix pat rest

def containsCI (hay pat : String) : Bool :=
  listIsInfix (pat.data.map Char.toLower) (hay.data.map Char.toLower)

def optContainsCI (hay : Option String) (pat : String) : Bool :=
  match hay with
  | some h => containsCI h pat
  | none => false

/-! ## Stored artwork documents and the `/artworks` list pipeline -/

/-- A document of the `artwork` collection.  Every field is optional at the
store level; handlers read with `d.get(...)` and supply defaults. -/
structure ArtworkDoc where
  title : Option String := none
  artist_id : Option String := none
  description : Option String := none
  medium : Option String := none
  dimensions : Option String := none
  year : Option Int := none
  price : Option ℚ := none
  currency : Option String := none
  images : Option (List String) := none
  is_available : Option Bool := none
  location : Option String := none
deriving Repr, DecidableEq

/-- One `{field: {"$regex": pat, "$options": "i"}}` condition. -/
structure RegexCond where
  field : String
  pat : String
deriving Repr, DecidableEq

/-- The filter built by `list_artworks`: `{}` or `{"$or": [...]}`. -/
inductive ArtFilter where
  | empty : ArtFilter
  | orF : List RegexCond → ArtFilter
deriving Repr, DecidableEq

/-- `filter_dict` of `list_artworks`: empty for an absent or empty (falsy)
query, else `$or` over title, description, medium. -/
def buildArtworkFilter (q : Option String) : ArtFilter :=
  match q with
  | none => .empty
  | some s => if s = "" then .empty
      else .orF [⟨"title", s⟩, ⟨"description", s⟩, ⟨"medium", s⟩]

/-- String-valued field access on an artwork document, for regex conditions. -/
def fieldStr (d : ArtworkDoc) : String → Option String
  | "title" => d.title
  | "artist_id" => d.artist_id
  | "description" => d.description
  | "medium" => d.medium
  | "dimensions" => d.dimensions
  | "currency" => d.currency
  | "location" => d.location
  | _ => none

/-- A `$regex`/`"i"` condition on a literal pattern holds iff the field is
present and contains the pattern case-insensitively. -/
def condMatches (d : ArtworkDoc) (c : RegexCond) : Bool :=
  optContainsCI (fieldStr d c.field) c.pat

def filterMatches (d : ArtworkDoc) : ArtFilter → Bool
  | .empty => true
  | .orF cs => cs.any (condMatches d)

/-- The showcase card built per document by `list_artworks`. -/
structure ShowcaseCard where
  id : String
  title : Option String
  artist_id : Option String
  images : List String
  price : Option ℚ
  currency : String
  is_available : Bool
  medium : Option String
  year : Option Int
deriving Repr, DecidableEq

/-- The per-document formatting step of `list_artworks`
(`d.get("images", [])[:3]`, `d.get("currency", "USD")`,
`d.get("is_available", True)`, ...). -/
def showcaseProject (id : String) (d : ArtworkDoc) : ShowcaseCard :=
  { id := id
    title := d.title
    artist_id := d.artist_id
    images := (d.images.getD []).take 3
    price := d.price
    currency := d.currency.getD "USD"
    is_available := d.is_available.getD true
    medium := d.medium
    year := d.year }

/-! ## Orders (`POST /orders`, `create_order`)

The payload's `items` is a `List[dict]`; each raw item may lack any of
`item_id`, `quantity`, `price` (`it.get("quantity", 1)`,
`it.get("price", 0)`, `i.get("item_id")`). -/

structure OrderPayloadItem where
  item_id : Option String := none
  quantity : Option Int := none
  price : Option ℚ := none
deriving Repr, DecidableEq

/-- The `OrderPayload` pydantic model of main.py (body of `POST /orders`);
`buyer_email` is an already-validated email string. -/
structure OrderPayload where
  buyer_name : String
  buyer_email : String
  shipping_address : String
  items : List OrderPayloadItem
  currency : Option String := some "USD"
deriving Repr, DecidableEq

/-- A persisted order line: `{"item_id": ..., "quantity": ...}` — no price
field exists on the `OrderItem` schema. -/
structure OrderItemRec where
  item_id : String
  quantity : Int
deriving Repr, DecidableEq

/-- A validated `Order` record (schemas.py `Order`). -/
structure OrderRec where
  buyer_name : String
  buyer_email : String
  shipping_address : String
  items : List OrderItemRec
  subtotal : ℚ
  currency : String
  status : String
deriving Repr, DecidableEq

/-- One item's contribution to the running subtotal:
`int(it.get("quantity", 1)) * float(it.get("price", 0))`. -/
def itemContrib (it : OrderPayloadItem) : ℚ :=
  ((it.quantity.getD 1 : ℤ) : ℚ) * it.price.getD 0

/-- The subtotal loop of `create_order` followed by `round(subtotal, 2)`. -/
def orderSubtotal (items : List OrderPayloadItem) : ℚ :=
  round2 (items.foldl (fun s it => s + itemContrib it) 0)

/-- Pydantic validation of one order line (schemas.py `OrderItem`):
`item_id` must be a string (a missing key arrives as `None` and is
rejected), `quantity` must satisfy `ge=1`. -/
def validateOrderItem (raw : Option String × Int) : Except String OrderItemRec :=
  match raw.1 with
  | none => .error "item_id: field required"
  | some iid =>
      if raw.2 < 1 then .error "quantity: must be at least 1"
      else .ok ⟨iid, raw.2⟩

def validateOrderItems : List (Option String × Int) → Except String (List OrderItemRec)
  | [] => .ok []
  | raw :: rest =>
      match validateOrderItem raw with
      | .error e => .error e
      | .ok r =>
          match validateOrderItems rest with
          | .error e => .error e
          | .ok rs => .ok (r :: rs)

/-- `payload.currency or "USD"`: Python `or` replaces a falsy (absent or
empty) currency with "USD". -/
def normCurrency : Option String → String
  | none => "USD"
  | some c => if c = "" then "USD" else c

/-- `create_order` of main.py: computes the rounded subtotal, builds the
`Order` pydantic record (which validates each line and `subtotal >= 0`),
and returns the record plus the `subtotal` field of the JSON response.
Any pydantic failure is caught and becomes an HTTP 500 (`.error`). -/
def create_order (p : OrderPayload) : Except String (OrderRec × ℚ) :=
  let subtotal := orderSubtotal p.items
  match validateOrderItems (p.items.map fun i => (i.item_id, i.quantity.getD 1)) with
  | .error e => .error e
  | .ok items =>
      if subtotal < 0 then .error "subtotal: must be non-negative"
      else
        let o : OrderRec :=
          { buyer_name := p.buyer_name
            buyer_email := p.buyer_email
            shipping_address := p.shipping_address
            items := items
            subtotal := subtotal
            currency := normCurrency p.currency
            status := "pending" }
        .ok (o, o.subtotal)

/-- The `subtotal` field of the response of `create_order`, when the request
succeeded. -/
def respSubtotal (r : Except String (OrderRec × ℚ)) : Option ℚ :=
  match r with
  | .ok (_, s) => some s
  | .error _ => none

/-! ## Pydantic validation of create inputs (schemas.py)

An input is a raw mapping; a field absent from the mapping is `none`.
Validation checks required presence and the declared numeric bounds, and
fills declared defaults for absent optional fields — pydantic rejects,
never clamps, a bound violation. -/

structure ArtworkInput where
  title : Option String := none
  artist_id : Option String := none
  description : Option String := none
  medium : Option String := none
  dimensions : Option String := none
  year : Option Int := none
  price : Option ℚ := none
  currency : Option String := none
  images : Option (List String) := none
  is_available : Option Bool := none
  location : Option String := none
deriving Repr, DecidableEq

/-- A validated `Artwork` record (schemas.py `Artwork`). -/
structure ArtworkRec where
  title : String
  artist_id : String
  description : Option String
  medium : Option String
  dimensions : Option String
  year : Option Int
  price : Option ℚ
  currency : String
  images : List String
  is_available : Bool
  location : Option String
deriving Repr, DecidableEq

/-- schemas.py `Artwork`: `title` and `artist_id` required; `price` optional
with `ge=0`; `currency` defaults to "USD"; `images` defaults to `[]`;
`is_available` defaults to `True`. -/
def validateArtwork (i : ArtworkInput) : Except String ArtworkRec :=
  match i.title with
  | none => .error "title: field required"
  | some title =>
    match i.artist_id with
    | none => .error "artist_id: field required"
    | some artist_id =>
      match i.price with
      | some pr =>
          if pr < 0 then .error "price: must be non-negative"
          else .ok ⟨title, artist_id, i.description, i.medium, i.dimensions,
                    i.year, some pr, i.currency.getD "USD", i.images.getD [],
                    i.is_available.getD true, i.location⟩
      | none => .ok ⟨title, artist_id, i.description, i.medium, i.dimensions,
                     i.year, none, i.currency.getD "USD", i.images.getD [],
                     i.is_available.getD true, i.location⟩

structure PostInput where
  author_id : Option String := none
  author_name : Option String := none
  content : Option String := none
  image_url : Option String := none
  tags : Option (List String) := none
  likes : Option Int := none
deriving Repr, DecidableEq

/-- A validated `Post` record (schemas.py `Post`). -/
structure PostRec where
  author_id : Option String
  author_name : String
  content : String
  image_url : Option String
  tags : List String
  likes : Int
deriving Repr, DecidableEq

/-- schemas.py `Post`: `author_name` and `content` required; `tags` defaults
to `[]`; `likes` defaults to 0 with `ge=0`. -/
def validatePost (i : PostInput) : Except String PostRec :=
  match i.author_name with
  | none => .error "author_name: field required"
  | some author_name =>
    match i.content with
    | none => .error "content: field required"
    | some content =>
      let likes := i.likes.getD 0
      if likes < 0 then .error "likes: must be non-negative"
      else .ok ⟨i.author_id, author_name, content, i.image_url,
                i.tags.getD [], likes⟩

structure SupplyItemInput where
  title : Option String := none
  brand : Option String := none
  description : Option String := none
  price : Option ℚ := none
  currency : Option String := none
  category : Option String := none
  stock : Option Int := none
  image_url : Option String := none
deriving Repr, DecidableEq

/-- A validated `SupplyItem` record (schemas.py `SupplyItem`). -/
structure SupplyItemRec where
  title : String
  brand : Option String
  description : Option String
  price : ℚ
  currency : String
  category : String
  stock : Int
  image_url : Option String
deriving Repr, DecidableEq

/-- schemas.py `SupplyItem`: `title`, `price` (`ge=0`) and `category`
required; `currency` defaults to "USD"; `stock` defaults to 0 with `ge=0`. -/
def validateSupplyItem (i : SupplyItemInput) : Except String SupplyItemRec :=
  match i.title with
  | none => .error "title: field required"
  | some title =>
    match i.price with
    | none => .error "price: field required"
    | some price =>
      if price < 0 then .error "price: must be non-negative"
      else
        match i.category with
        | none => .error "category: field required"
        | some category =>
          let stock := i.stock.getD 0
          if stock < 0 then .error "stock: must be non-negative"
          else .ok ⟨title, i.brand, i.description, price,
                    i.currency.getD "USD", category, stock, i.image_url⟩

/-! ## The `post` collection and `POST /posts/like` (`like_post`) -/

/-- A document of the `post` collection; any field may be absent. -/
structure PostDoc where
  author_id : Option String := none
  author_name : Option String := none
  content : Option String := none
  image_url : Option String := none
  tags : Option (List String) := none
  likes : Option Int := none
deriving Repr, DecidableEq

/-- The `post` collection: documents keyed by ObjectId string, in insertion
order (Mongo's natural order for this workload). -/
abbrev PostStore := List (String × PostDoc)

/-- `bson.ObjectId(s)` accepts exactly a 24-character hexadecimal string. -/
def isValidObjectId (s : String) : Bool :=
  s.length = 24 && s.data.all fun c =>
    c.isDigit || ('a' ≤ c && c ≤ 'f') || ('A' ≤ c && c ≤ 'F')

/-- `db["post"].find_one({"_id": oid})`: first document with the given id. -/
def findOne : PostStore → String → Option PostDoc
  | [], _ => none
  | (k, d) :: rest, oid => if k = oid then some d else findOne rest oid

/-- `db["post"].update_one({"_id": oid}, {"$set": {"likes": v}})`: sets the
`likes` field on the first matching document, leaves the rest untouched. -/
def updateLikes : PostStore → String → Int → PostStore
  | [], _, _ => []
  | (k, d) :: rest, oid, v =>
      if k = oid then (k, { d with likes := some v }) :: rest
      else (k, d) :: updateLikes rest oid v

inductive LikeError where
  /-- HTTP 400, "Invalid post id" -/
  | invalidId : LikeError
  /-- HTTP 404, "Post not found" -/
  | notFound : LikeError
deriving Repr, DecidableEq

/-- `like_post` of main.py: parse the id, look the post up, compute
`int(doc.get("likes", 0)) + 1`, write it back, return the new count.
The returned store is the collection after the request: on either error
nothing was written. -/
def like_post (s : PostStore) (post_id : String) : PostStore × Except LikeError Int :=
  if ¬ isValidObjectId post_id then (s, .error .invalidId)
  else
    match findOne s post_id with
    | none => (s, .error .notFound)
    | some doc =>
        let likes := doc.likes.getD 0 + 1
        (updateLikes s post_id likes, .ok likes)

/-- Inserting a freshly created (validated) post: the store assigns a fresh
id and appends the document. -/
def toPostDoc (r : PostRec) : PostDoc :=
  ⟨r.author_id, some r.author_name, some r.content, r.image_url,
   some r.tags, some r.likes⟩

def insertPost (s : PostStore) (oid : String) (r : PostRec) : PostStore :=
  s ++ [(oid, toPostDoc r)]

/-- One system operation touching the `post` collection: `POST /posts`
(create through `validatePost`, with a store-generated fresh id) or
`POST /posts/like`.  A failed create leaves the store unchanged. -/
inductive PostStep : PostStore → PostStore → Prop where
  | createOk (s : PostStore) (oid : String) (i : PostInput) (r : PostRec) :
      validatePost i = .ok r → findOne s oid = none →
      PostStep s (insertPost s oid r)
  | createFail (s : PostStore) (i : PostInput) (e : String) :
      validatePost i = .error e → PostStep s s
  | like (s : PostStore) (pid : String) :
      PostStep s (like_post s pid).1

/-- The likes count the system reads off a stored post document
(`int(doc.get("likes", 0))`). -/
def docLikes (d : PostDoc) : Int := d.likes.getD 0

/-! ## `GET /schema` (`get_schema_definitions`)

`model_to_fields` returns `list(model_cls.model_fields.keys())`: the field
names in declaration order of each pydantic model of schemas.py. -/

def userFields : List String :=
  ["name", "email", "bio", "avatar_url", "role", "instagram", "website",
   "is_active"]

def artworkFields : List String :=
  ["title", "artist_id", "description", "medium", "dimensions", "year",
   "price", "currency", "images", "is_available", "location"]

def inquiryFields : List String :=
  ["artwork_id", "buyer_id", "buyer_name", "buyer_email", "message", "status"]

def supplyitemFields : List String :=
  ["title", "brand", "description", "price", "currency", "category", "stock",
   "image_url"]

def orderFields : List String :=
  ["buyer_name", "buyer_email", "shipping_address", "items", "subtotal",
   "currency", "status"]

def postFields : List String :=
  ["author_id", "author_name", "content", "image_url", "tags", "likes"]

def commentFields : List String :=
  ["post_id", "author_name", "content"]

/-- The response of `GET /schema`: entity kind ↦ field-name list. -/
def schemaDefinitions : List (String × List String) :=
  [("user", userFields), ("artwork", artworkFields), ("inquiry", inquiryFields),
   ("supplyitem", supplyitemFields), ("order", orderFields),
   ("post", postFields), ("comment", commentFields)]

/-! ## Helper lemmas -/

theorem validateOrderItem_ok {raw : Option String × Int} {rec : OrderItemRec}
    (h : validateOrderItem raw = .ok rec) :
    raw.1 = some rec.item_id ∧ rec.quantity = raw.2 ∧ 1 ≤ rec.quantity := by
  unfold validateOrderItem at h
  cases hid : raw.1 with
  | none => rw [hid] at h; exact absurd h (by simp)
  | some iid =>
      rw [hid] at h
      dsimp only at h
      split_ifs at h with hq
      have : OrderItemRec.mk iid raw.2 = rec := by simpa using h
      subst this
      exact ⟨rfl, rfl, by dsimp only; omega⟩

theorem validateOrderItems_ok_forall :
    ∀ (items : List OrderPayloadItem) (recs : List OrderItemRec),
      validateOrderItems (items.map fun i => (i.item_id, i.quantity.getD 1)) = .ok recs →
      List.Forall₂ (fun (i : OrderPayloadItem) (rec : OrderItemRec) =>
        i.item_id = some rec.item_id ∧ rec.quantity = i.quantity.getD 1) items recs := by
  intro items
  induction items with
  | nil =>
      intro recs h
      simp only [List.map_nil, validateOrderItems] at h
      cases h
      exact List.Forall₂.nil
  | cons i rest ih =>
      intro recs h
      simp only [List.map_cons] at h
      unfold validateOrderItems at h
      cases hv : validateOrderItem (i.item_id, i.quantity.getD 1) with
      | error e => rw [hv] at h; exact absurd h (by simp)
      | ok r =>
          rw [hv] at h
          cases hr : validateOrderItems (rest.map fun i => (i.item_id, i.quantity.getD 1)) with
          | error e => rw [hr] at h; exact absurd h (by simp)
          | ok rs =>
              rw [hr] at h
              have hrecs : r :: rs = recs := by simpa using h
              subst hrecs
              have hv' := validateOrderItem_ok hv
              exact List.Forall₂.cons ⟨hv'.1, hv'.2.1⟩ (ih rs hr)

theorem create_order_ok {p : OrderPayload} {o : OrderRec} {r : ℚ}
    (h : create_order p = .ok (o, r)) :
    List.Forall₂ (fun (i : OrderPayloadItem) (rec : OrderItemRec) =>
      i.item_id = some rec.item_id ∧ rec.quantity = i.quantity.getD 1) p.items o.items ∧
    o.subtotal = orderSubtotal p.items ∧ r = o.subtotal := by
  unfold create_order at h
  cases hv : validateOrderItems (p.items.map fun i => (i.item_id, i.quantity.getD 1)) with
  | error e => rw [hv] at h; exact absurd h (by simp)
  | ok items =>
      rw [hv] at h
      dsimp only at h
      split_ifs at h with hs
      rw [Except.ok.injEq, Prod.mk.injEq] at h
      obtain ⟨ho, hr⟩ := h
      subst ho
      subst hr
      refine ⟨?_, rfl, rfl⟩
      exact validateOrderItems_ok_forall p.items items hv

/-- The example order payload of the spec's testable property:
items `[{itemId:"a", quantity:2, price:10.005}, {itemId:"b", quantity:1,
price:5}]`. -/
def exOrderItems : List OrderPayloadItem :=
  [⟨some "a", some 2, some (10005/1000)⟩, ⟨some "b", some 1, some 5⟩]

def exOrderPayload : OrderPayload :=
  ⟨"Ada", "ada@example.com", "1 Main St", exOrderItems, some "USD"⟩

/-! ## Claims -/

/-- C1: every successful `POST /orders` persists only `item_id` and
`quantity` per line (`OrderItemRec` has no price field, and each persisted
line carries exactly the payload line's id and defaulted quantity), the
order's `subtotal` is the sum of quantity×price over the supplied items
rounded to 2 decimal places, and the response's `subtotal` equals the
stored one; on the spec's example items the subtotal is 25.01. -/
theorem C1_order_subtotal_and_lines :
    (∀ (p : OrderPayload) (o : OrderRec) (r : ℚ), create_order p = .ok (o, r) →
      List.Forall₂ (fun (i : OrderPayloadItem) (rec : OrderItemRec) =>
        i.item_id = some rec.item_id ∧ rec.quantity = i.quantity.getD 1) p.items o.items ∧
      o.subtotal = round2 (p.items.foldl (fun s it => s + itemContrib it) 0) ∧
      r = o.subtotal) ∧
    respSubtotal (create_order exOrderPayload) = some (2501/100) := by
  constructor
  · intro p o r h
    simpa [orderSubtotal] using create_order_ok h
  · simp only [create_order, exOrderPayload, exOrderItems, List.map, validateOrderItems,
      validateOrderItem, respSubtotal, orderSubtotal, List.foldl, itemContrib, Option.getD,
      normCurrency]
    norm_num [round2, roundHalfEven]

/-- Witness for C1: the general part applied to the spec's example payload,
whose order record and 25.01 response are computed concretely. -/
theorem C1_order_subtotal_and_lines_witness :
    List.Forall₂ (fun (i : OrderPayloadItem) (rec : OrderItemRec) =>
      i.item_id = some rec.item_id ∧ rec.quantity = i.quantity.getD 1)
      exOrderPayload.items [⟨"a", 2⟩, ⟨"b", 1⟩] ∧
    (⟨"Ada", "ada@example.com", "1 Main St", [⟨"a", 2⟩, ⟨"b", 1⟩], 2501/100,
      "USD", "pending"⟩ : OrderRec).subtotal =
      round2 (exOrderPayload.items.foldl (fun s it => s + itemContrib it) 0) ∧
    (2501/100 : ℚ) = (⟨"Ada", "ada@example.com", "1 Main St",
      [⟨"a", 2⟩, ⟨"b", 1⟩], 2501/100, "USD", "pending"⟩ : OrderRec).subtotal :=
  C1_order_subtotal_and_lines.1 exOrderPayload
    ⟨"Ada", "ada@example.com", "1 Main St", [⟨"a", 2⟩, ⟨"b", 1⟩], 2501/100,
      "USD", "pending"⟩ (2501/100) (by
        simp only [create_order, exOrderPayload, exOrderItems, List.map, validateOrderItems,
          validateOrderItem, orderSubtotal, List.foldl, itemContrib, Option.getD, normCurrency]
        norm_num [round2, roundHalfEven])

theorem findOne_updateLikes (s : PostStore) (oid pid : String) (v : Int) :
    findOne (updateLikes s oid v) pid =
      if pid = oid then (findOne s oid).map (fun d => { d with likes := some v })
      else findOne s pid := by
  induction s with
  | nil => simp [updateLikes, findOne]
  | cons kv rest ih =>
      obtain ⟨k, d⟩ := kv
      by_cases hk : k = oid
      · subst hk
        simp only [updateLikes, if_pos rfl, findOne]
        by_cases hp : k = pid
        · subst hp; simp [findOne]
        · have hps : ¬ pid = k := fun h => hp h.symm
          simp [findOne, hp, hps]
      · simp only [updateLikes, if_neg hk, findOne]
        by_cases hp : k = pid
        · subst hp
          have hpo : ¬ k = oid := hk
          simp [findOne, hpo]
        · simp [hp, hk, ih]

/-- A concrete valid ObjectId and a one-post store for witnesses. -/
def exOid : String := "507f1f77bcf86cd799439011"

def exOid2 : String := "507f1f77bcf86cd799439012"

def exStore : PostStore := [(exOid, { likes := some 4 })]

/-- C2: a `POST /posts/like` whose identifier parses and resolves to an
existing post with likes = N writes back N + 1 (only the `likes` field of
that document changes) and returns N + 1. -/
theorem C2_like_reads_and_increments :
    ∀ (s : PostStore) (pid : String) (doc : PostDoc),
      isValidObjectId pid = true → findOne s pid = some doc →
      like_post s pid =
        (updateLikes s pid (docLikes doc + 1), .ok (docLikes doc + 1)) ∧
      findOne (like_post s pid).1 pid =
        some { doc with likes := some (docLikes doc + 1) } := by
  intro s pid doc hv hf
  have h1 : like_post s pid =
      (updateLikes s pid (docLikes doc + 1), .ok (docLikes doc + 1)) := by
    simp [like_post, hv, hf, docLikes]
  refine ⟨h1, ?_⟩
  rw [h1]
  simp [findOne_updateLikes, hf]

/-- Witness for C2: liking the post with likes = 4 stores and returns 5. -/
theorem C2_like_reads_and_increments_witness :
    like_post exStore exOid = (updateLikes exStore exOid 5, .ok 5) ∧
    findOne (like_post exStore exOid).1 exOid = some { likes := some 5 } := by
  simpa [docLikes] using
    C2_like_reads_and_increments exStore exOid { likes := some 4 }
      (by decide) (by decide)

/-- C3: `POST /posts/like` fails with HTTP 400 (`invalidId`) on a malformed
identifier and with HTTP 404 (`notFound`) on a well-formed identifier that
resolves to no post; in both cases the collection is returned unchanged —
nothing is written. -/
theorem C3_like_error_paths :
    ∀ (s : PostStore) (pid : String),
      (isValidObjectId pid = false → like_post s pid = (s, .error .invalidId)) ∧
      (isValidObjectId pid = true → findOne s pid = none →
        like_post s pid = (s, .error .notFound)) := by
  intro s pid
  constructor
  · intro h; simp [like_post, h]
  · intro h hf; simp [like_post, h, hf]

/-- Witness for C3: a malformed id and a valid-but-absent id both error and
leave the store untouched. -/
theorem C3_like_error_paths_witness :
    like_post exStore "zzz" = (exStore, .error .invalidId) ∧
    like_post exStore exOid2 = (exStore, .error .notFound) :=
  ⟨(C3_like_error_paths exStore "zzz").1 (by decide),
   (C3_like_error_paths exStore exOid2).2 (by decide) (by decide)⟩

def oilDoc : ArtworkDoc := { title := some "Sunset", medium := some "Oil on canvas" }

def watercolorDoc : ArtworkDoc :=
  { title := some "Watercolor Study", medium := some "Watercolor" }

/-- C4: the filter `list_artworks` builds for a non-empty free-text query
matches a stored artwork exactly when its title OR description OR medium
contains the query as a case-insensitive substring — an `$or` over exactly
those three fields; `q = "oil"` matches medium "Oil on canvas" and does not
match title "Watercolor Study" / medium "Watercolor". -/
theorem C4_artwork_query_filter :
    (∀ (q : String), q ≠ "" → ∀ (d : ArtworkDoc),
      filterMatches d (buildArtworkFilter (some q)) = true ↔
        (∃ t, d.title = some t ∧ containsCI t q = true) ∨
        (∃ de, d.description = some de ∧ containsCI de q = true) ∨
        (∃ m, d.medium = some m ∧ containsCI m q = true)) ∧
    filterMatches oilDoc (buildArtworkFilter (some "oil")) = true ∧
    filterMatches watercolorDoc (buildArtworkFilter (some "oil")) = false := by
  refine ⟨?_, by decide, by decide⟩
  intro q hq d
  cases ht : d.title <;> cases hd : d.description <;> cases hm : d.medium <;>
    simp [filterMatches, buildArtworkFilter, hq, condMatches, fieldStr, optContainsCI,
      ht, hd, hm]

/-- Witness for C4: the three-field disjunction instantiated on the
oil-on-canvas document with query "oil". -/
theorem C4_artwork_query_filter_witness :
    filterMatches oilDoc (buildArtworkFilter (some "oil")) = true ↔
      (∃ t, oilDoc.title = some t ∧ containsCI t "oil" = true) ∨
      (∃ de, oilDoc.description = some de ∧ containsCI de "oil" = true) ∨
      (∃ m, oilDoc.medium = some m ∧ containsCI m "oil" = true) :=
  C4_artwork_query_filter.1 "oil" (by decide) oilDoc

def fiveImgDoc : ArtworkDoc := { images := some ["u1", "u2", "u3", "u4", "u5"] }

/-- C5: the showcase card of `list_artworks` is determined by id, title,
artist_id, images, price, currency, is_available, medium, year alone
(changing description, dimensions or location never changes it — those
fields are omitted), its images are the first 3 stored URLs in order, and
an artwork stored with 5 images is projected with exactly its first 3.
(The spec writes the exposed field names in camelCase for the snake_case
source fields.) -/
theorem C5_showcase_shape :
    (∀ (id : String) (d : ArtworkDoc) (desc dim loc : Option String),
      showcaseProject id { d with description := desc, dimensions := dim, location := loc } =
        showcaseProject id d) ∧
    (∀ (id : String) (d : ArtworkDoc),
      (showcaseProject id d).images = (d.images.getD []).take 3) ∧
    (∀ (id : String) (d : ArtworkDoc) (imgs : List String),
      d.images = some imgs → imgs.length = 5 →
      (showcaseProject id d).images = imgs.take 3 ∧
      (showcaseProject id d).images.length = 3) := by
  refine ⟨fun id d desc dim loc => rfl, fun id d => rfl, ?_⟩
  intro id d imgs hi hl
  constructor
  · simp [showcaseProject, hi]
  · simp [showcaseProject, hi, List.length_take, hl]

/-- Witness for C5: a document with 5 stored image URLs projects to exactly
its first 3. -/
theorem C5_showcase_shape_witness :
    (showcaseProject "x" fiveImgDoc).images = ["u1", "u2", "u3", "u4", "u5"].take 3 ∧
    (showcaseProject "x" fiveImgDoc).images.length = 3 :=
  C5_showcase_shape.2.2 "x" fiveImgDoc ["u1", "u2", "u3", "u4", "u5"] rfl rfl

/-- C6: `GET /schema` maps the entity kind "order" to the `Order` model's
field names, equal as a set to {buyer_name, buyer_email, shipping_address,
items, subtotal, currency, status} (the spec writes these names in
camelCase: buyerName, buyerEmail, shippingAddress, items, subtotal,
currency, status). -/
theorem C6_schema_order_fields :
    List.lookup "order" schemaDefinitions = some orderFields ∧
    orderFields.toFinset = {"buyer_name", "buyer_email", "shipping_address",
      "items", "subtotal", "currency", "status"} := by
  exact ⟨by decide, by decide⟩

theorem validateArtwork_ok {i : ArtworkInput} {a : ArtworkRec}
    (h : validateArtwork i = .ok a) :
    a.currency = i.currency.getD "USD" ∧ a.is_available = i.is_available.getD true := by
  unfold validateArtwork at h
  cases ht : i.title <;> rw [ht] at h
  · exact absurd h (by simp)
  · cases ha : i.artist_id <;> rw [ha] at h
    · exact absurd h (by simp)
    · cases hp : i.price <;> rw [hp] at h
      · dsimp only at h
        rw [Except.ok.injEq] at h
        subst h
        exact ⟨rfl, rfl⟩
      · dsimp only at h
        split_ifs at h
        rw [Except.ok.injEq] at h
        subst h
        exact ⟨rfl, rfl⟩

theorem validatePost_ok {i : PostInput} {p : PostRec}
    (h : validatePost i = .ok p) :
    p.likes = i.likes.getD 0 ∧ 0 ≤ p.likes := by
  unfold validatePost at h
  cases hn : i.author_name <;> rw [hn] at h
  · exact absurd h (by simp)
  · cases hc : i.content <;> rw [hc] at h
    · exact absurd h (by simp)
    · dsimp only at h
      split_ifs at h with hneg
      rw [Except.ok.injEq] at h
      subst h
      exact ⟨rfl, by dsimp only; omega⟩

/-- C7: every validated create input receives the declared defaults for
absent optional fields — `currency` "USD" and `is_available` true on
Artwork, `likes` 0 on Post — and every Artwork input with its required
fields, a non-negative (or absent) price and no currency field is accepted
and stored with currency "USD". -/
theorem C7_defaults_applied :
    (∀ (i : ArtworkInput) (a : ArtworkRec), validateArtwork i = .ok a →
      (i.currency = none → a.currency = "USD") ∧
      (i.is_available = none → a.is_available = true)) ∧
    (∀ (i : PostInput) (p : PostRec), validatePost i = .ok p →
      i.likes = none → p.likes = 0) ∧
    (∀ (i : ArtworkInput) (t aid : String), i.title = some t →
      i.artist_id = some aid → (∀ pr, i.price = some pr → 0 ≤ pr) →
      i.currency = none →
      ∃ a, validateArtwork i = .ok a ∧ a.currency = "USD") := by
  refine ⟨?_, ?_, ?_⟩
  · intro i a h
    have hok := validateArtwork_ok h
    exact ⟨fun hc => by rw [hok.1, hc]; rfl, fun hv => by rw [hok.2, hv]; rfl⟩
  · intro i p h hl
    rw [(validatePost_ok h).1, hl]
    rfl
  · intro i t aid ht ha hpr hc
    have hex : ∃ a, validateArtwork i = .ok a := by
      unfold validateArtwork
      rw [ht, ha]
      cases hp : i.price
      · exact ⟨_, rfl⟩
      · dsimp only
        rw [if_neg (not_lt.mpr (hpr _ hp))]
        exact ⟨_, rfl⟩
    obtain ⟨a, hA⟩ := hex
    refine ⟨a, hA, ?_⟩
    rw [(validateArtwork_ok hA).1, hc]
    rfl

/-- Witness for C7: a minimal Artwork input (title and artist only) and a
minimal Post input (author and content only) take the defaults. -/
theorem C7_defaults_applied_witness :
    ∃ a, validateArtwork { title := some "Dawn", artist_id := some "u1" } = .ok a ∧
      a.currency = "USD" :=
  C7_defaults_applied.2.2 { title := some "Dawn", artist_id := some "u1" }
    "Dawn" "u1" rfl rfl (by simp) rfl

/-- C8: validation rejects (rather than clamps) a SupplyItem input missing
`price`, a negative `price`, a negative `stock`, and an order line whose
`quantity` is below 1 — in each case no record is produced. -/
theorem C8_bounds_rejected :
    (∀ i : SupplyItemInput, i.price = none →
      (validateSupplyItem i).isOk = false) ∧
    (∀ (i : SupplyItemInput) (pr : ℚ), i.price = some pr → pr < 0 →
      (validateSupplyItem i).isOk = false) ∧
    (∀ (i : SupplyItemInput) (st : Int), i.stock = some st → st < 0 →
      (validateSupplyItem i).isOk = false) ∧
    (∀ raw : Option String × Int, raw.2 < 1 →
      (validateOrderItem raw).isOk = false) := by
  refine ⟨?_, ?_, ?_, ?_⟩
  · intro i hp
    cases ht : i.title <;>
      simp [validateSupplyItem, ht, hp, Except.isOk, Except.toBool]
  · intro i pr hp hneg
    cases ht : i.title <;>
      simp [validateSupplyItem, ht, hp, hneg, Except.isOk, Except.toBool]
  · intro i st hst hneg
    cases ht : i.title <;> cases hp : i.price <;> cases hc : i.category <;>
      simp only [validateSupplyItem, ht, hp, hc, hst, hneg, Option.getD] <;>
      first
        | rfl
        | (split_ifs <;> rfl)
  · intro raw hq
    cases hid : raw.1 <;>
      simp [validateOrderItem, hid, hq, Except.isOk, Except.toBool]

def noPriceSupply : SupplyItemInput :=
  { title := some "Brush", category := some "Brushes" }

def negPriceSupply : SupplyItemInput :=
  { title := some "Brush", price := some (-2), category := some "Brushes" }

def negStockSupply : SupplyItemInput :=
  { title := some "Brush", price := some 3, category := some "Brushes", stock := some (-1) }

/-- Witness for C8: a priceless input, a negatively priced input, a
negative-stock input and a zero-quantity order line are all rejected. -/
theorem C8_bounds_rejected_witness :
    (validateSupplyItem noPriceSupply).isOk = false ∧
    (validateSupplyItem negPriceSupply).isOk = false ∧
    (validateSupplyItem negStockSupply).isOk = false ∧
    (validateOrderItem (some "a", 0)).isOk = false :=
  ⟨C8_bounds_rejected.1 noPriceSupply rfl,
   C8_bounds_rejected.2.1 negPriceSupply (-2) rfl (by norm_num),
   C8_bounds_rejected.2.2.1 negStockSupply (-1) rfl (by norm_num),
   C8_bounds_rejected.2.2.2 (some "a", 0) (by norm_num)⟩

theorem findOne_append_some {s : PostStore} {pid : String} {d : PostDoc}
    (l : PostStore) (h : findOne s pid = some d) :
    findOne (s ++ l) pid = some d := by
  induction s with
  | nil => simp [findOne] at h
  | cons kv rest ih =>
      obtain ⟨k, dd⟩ := kv
      by_cases hk : k = pid
      · simpa [findOne, hk] using h
      · simp only [findOne, if_neg hk] at h ⊢
        exact ih h

/-- C9: likes never decrease across the operations the system supports on
the `post` collection.  Post creation validates `likes >= 0` (default 0),
creation and the like increment are the only mutations, and any post
present before and after a step has a likes count at least as large
afterwards — the like operation only ever increments. -/
theorem C9_likes_never_decrease :
    (∀ (i : PostInput) (r : PostRec), validatePost i = .ok r → 0 ≤ r.likes) ∧
    (∀ (s s' : PostStore), PostStep s s' →
      ∀ (pid : String) (d d' : PostDoc),
        findOne s pid = some d → findOne s' pid = some d' →
        docLikes d ≤ docLikes d') := by
  constructor
  · intro i r h
    exact (validatePost_ok h).2
  · intro s s' hstep pid d d' hd hd'
    cases hstep with
    | createOk oid i r hv hfresh =>
        rw [insertPost, findOne_append_some _ hd] at hd'
        cases hd'
        exact le_refl _
    | createFail i e hv =>
        rw [hd] at hd'
        cases hd'
        exact le_refl _
    | like pid2 =>
        by_cases hv : isValidObjectId pid2
        · cases hf : findOne s pid2 with
          | none =>
              rw [show (like_post s pid2).1 = s by simp [like_post, hv, hf]] at hd'
              rw [hd] at hd'
              cases hd'
              exact le_refl _
          | some doc =>
              have h1 : (like_post s pid2).1 = updateLikes s pid2 (docLikes doc + 1) := by
                simp [like_post, hv, hf, docLikes]
              rw [h1, findOne_updateLikes] at hd'
              by_cases hp : pid = pid2
              · subst hp
                rw [if_pos rfl, hf] at hd'
                rw [hd] at hf
                cases hf
                rw [Option.map_some'] at hd'
                cases hd'
                simp only [docLikes, Option.getD_some]
                omega
              · rw [if_neg hp, hd] at hd'
                cases hd'
                exact le_refl _
        · rw [show (like_post s pid2).1 = s by simp [like_post, hv]] at hd'
          rw [hd] at hd'
          cases hd'
          exact le_refl _

def exPostInput : PostInput := { author_name := some "Ann", content := some "hi" }

def exPostRec : PostRec := ⟨none, "Ann", "hi", none, [], 0⟩

/-- Witness for C9: the minimal post input validates with likes 0, and the
like step on the likes=4 store raises the stored count from 4 to 5. -/
theorem C9_likes_never_decrease_witness :
    (0 : Int) ≤ exPostRec.likes ∧
    docLikes { likes := some 4 } ≤ docLikes { likes := some 5 } :=
  ⟨C9_likes_never_decrease.1 exPostInput exPostRec rfl,
   C9_likes_never_decrease.2 exStore (like_post exStore exOid).1
     (PostStep.like exStore exOid) exOid { likes := some 4 } { likes := some 5 }
     (by decide) (by decide)⟩

theorem roundHalfEven_nonneg {q : ℚ} (h : 0 ≤ q) : 0 ≤ roundHalfEven q := by
  unfold roundHalfEven
  have hf : (0 : ℤ) ≤ ⌊q⌋ := Int.floor_nonneg.mpr h
  dsimp only
  split_ifs <;> omega

theorem round2_nonneg {q : ℚ} (h : 0 ≤ q) : 0 ≤ round2 q := by
  unfold round2
  apply div_nonneg _ (by norm_num : (0 : ℚ) ≤ 100)
  exact_mod_cast roundHalfEven_nonneg (mul_nonneg h (by norm_num))

theorem itemContrib_nonneg {it : OrderPayloadItem}
    (hq : ∀ q, it.quantity = some q → 1 ≤ q)
    (hp : ∀ pr, it.price = some pr → 0 ≤ pr) : 0 ≤ itemContrib it := by
  unfold itemContrib
  apply mul_nonneg
  · cases hqq : it.quantity with
    | none => simp
    | some q =>
        have h1 := hq q hqq
        simp only [hqq, Option.getD_some]
        exact_mod_cast by omega
  · cases hpp : it.price with
    | none => simp
    | some pr =>
        simp only [hpp, Option.getD_some]
        exact hp pr hpp

theorem foldl_contrib_nonneg :
    ∀ (items : List OrderPayloadItem) (a : ℚ),
      (∀ it ∈ items, 0 ≤ itemContrib it) → 0 ≤ a →
      0 ≤ items.foldl (fun s it => s + itemContrib it) a := by
  intro items
  induction items with
  | nil => intro a _ ha; simpa using ha
  | cons it rest ih =>
      intro a hpos ha
      simp only [List.foldl_cons]
      exact ih _ (fun x hx => hpos x (List.mem_cons_of_mem _ hx))
        (add_nonneg ha (hpos it (List.mem_cons_self _ _)))

theorem validateOrderItems_ok_of :
    ∀ (items : List OrderPayloadItem),
      (∀ it ∈ items, it.item_id ≠ none) →
      (∀ it ∈ items, 1 ≤ it.quantity.getD 1) →
      ∃ recs, validateOrderItems
        (items.map fun i => (i.item_id, i.quantity.getD 1)) = .ok recs := by
  intro items
  induction items with
  | nil => exact fun _ _ => ⟨[], rfl⟩
  | cons it rest ih =>
      intro hid hq
      obtain ⟨recs, hr⟩ := ih (fun x hx => hid x (List.mem_cons_of_mem _ hx))
        (fun x hx => hq x (List.mem_cons_of_mem _ hx))
      cases hii : it.item_id with
      | none => exact absurd hii (hid it (List.mem_cons_self _ _))
      | some iid =>
          refine ⟨⟨iid, it.quantity.getD 1⟩ :: recs, ?_⟩
          simp only [List.map_cons, validateOrderItems, validateOrderItem, hii]
          rw [if_neg (not_lt.mpr (hq it (List.mem_cons_self _ _))), hr]

/-- C10: in `create_order`, an order item lacking `quantity` is silently
treated as quantity 1 (and persisted with quantity 1) and an item lacking
`price` is treated as price 0, contributing 0 to the subtotal; neither
omission rejects the request — any payload whose items all carry an id,
whose present quantities are ≥ 1 and whose present prices are ≥ 0 is
accepted. -/
theorem C10_missing_item_fields_defaulted :
    (∀ it : OrderPayloadItem, it.price = none → itemContrib it = 0) ∧
    (∀ it : OrderPayloadItem, it.quantity = none → it.quantity.getD 1 = 1) ∧
    (∀ p : OrderPayload,
      (∀ it ∈ p.items, it.item_id ≠ none) →
      (∀ it ∈ p.items, ∀ q, it.quantity = some q → 1 ≤ q) →
      (∀ it ∈ p.items, ∀ pr, it.price = some pr → 0 ≤ pr) →
      ∃ o, create_order p = .ok (o, o.subtotal) ∧
        List.Forall₂ (fun (i : OrderPayloadItem) (rec : OrderItemRec) =>
          rec.quantity = i.quantity.getD 1) p.items o.items) := by
  refine ⟨?_, ?_, ?_⟩
  · intro it hp
    simp [itemContrib, hp]
  · intro it hq
    rw [hq]
    rfl
  · intro p hid hq0 hpr
    have hq : ∀ it ∈ p.items, 1 ≤ it.quantity.getD 1 := by
      intro it hit
      cases hqq : it.quantity
      · simp
      · simp only [Option.getD_some]
        exact hq0 it hit _ hqq
    obtain ⟨recs, hr⟩ := validateOrderItems_ok_of p.items hid hq
    have hcontrib : ∀ it ∈ p.items, 0 ≤ itemContrib it := fun it hit =>
      itemContrib_nonneg (fun q hqq => hq0 it hit q hqq)
        (fun pr hpp => hpr it hit pr hpp)
    have hsub : 0 ≤ orderSubtotal p.items :=
      round2_nonneg (foldl_contrib_nonneg p.items 0 hcontrib le_rfl)
    refine ⟨⟨p.buyer_name, p.buyer_email, p.shipping_address, recs,
      orderSubtotal p.items, normCurrency p.currency, "pending"⟩, ?_, ?_⟩
    · simp only [create_order]
      rw [hr]
      dsimp only
      rw [if_neg (not_lt.mpr hsub)]
    · exact (validateOrderItems_ok_forall p.items recs hr).imp fun a b h => h.2

def exC10Payload : OrderPayload :=
  ⟨"Bo", "bo@example.com", "2 Oak Ave",
    [⟨some "a", none, none⟩, ⟨some "b", some 2, some 3⟩], some "USD"⟩

/-- Witness for C10: a payload whose first item has neither quantity nor
price is accepted, persisting that line with quantity 1. -/
theorem C10_missing_item_fields_defaulted_witness :
    ∃ o, create_order exC10Payload = .ok (o, o.subtotal) ∧
      List.Forall₂ (fun (i : OrderPayloadItem) (rec : OrderItemRec) =>
        rec.quantity = i.quantity.getD 1) exC10Payload.items o.items :=
  C10_missing_item_fields_defaulted.2.2 exC10Payload
    (by
      intro it hit
      simp only [exC10Payload, List.mem_cons, List.not_mem_nil, or_false] at hit
      rcases hit with rfl | rfl <;> simp)
    (by
      intro it hit
      simp only [exC10Payload, List.mem_cons, List.not_mem_nil, or_false] at hit
      rcases hit with rfl | rfl <;> intro q hqq <;> simp_all
      omega)
    (by
      intro it hit
      simp only [exC10Payload, List.mem_cons, List.not_mem_nil, or_false] at hit
      rcases hit with rfl | rfl <;> intro pr hpp
      · exact absurd hpp (by simp)
      · have h3 : pr = 3 := by simpa using hpp.symm
        rw [h3]
        norm_num)

end ArtFlow
